import Mathlib

set_option maxRecDepth 10000

/-!
Shallow embedding of the ADSBoostPipeline scoring engine
(`adsboost/app.py`, configuration in `config.py`, ORM row in
`adsboost/models.py`).

Modelling conventions:
* Python `float` arithmetic is idealised as exact rational arithmetic (`ℚ`);
  the literals `0.1`, `0.9`, `30.44` become `1/10`, `9/10`, `3044/100`.
* Python dictionaries with string keys are association lists
  `List (String × α)` with first-match lookup (`dictGet`); the dictionaries
  built by the code have pairwise distinct keys, so first-match agrees with
  Python dict lookup.
* Fallible Python code (`ZeroDivisionError`, `KeyError`) is `Except String`.
* `datetime.now()` is passed in explicitly as `now : Int`, the proleptic
  Gregorian ordinal of the current date (midnight), matching the CPython
  `date.toordinal` convention, so that `(datetime.now() - ref).days`
  becomes `now - dateOrdinal ref`.
* `config.get(KEY, default)` is an `Option` field with `getD`; for the keys
  that the code immediately tests for truthiness (`DOCTYPE_RANKING`,
  `BOOST_WEIGHTS`, `COLLECTION_RANKINGS`) an absent key and an empty table
  behave identically, so those fields are plain lists with `[]` playing
  both roles.
-/

/-- A value that may be a single string or a list of strings (Python values
reaching `classifications` / `bib_data.database`). -/
inductive StrOrList where
  | str (s : String)
  | list (l : List String)
deriving DecidableEq, Repr

/-- The `bib_data` sub-mapping of a record (already JSON-decoded). -/
structure BibData where
  doctype : Option String := none
  refereed : Option Bool := none
  pubdate : Option String := none
  entry_date : Option String := none
  database : Option StrOrList := none
deriving DecidableEq, Repr

/-- The `metrics` sub-mapping of a record (already JSON-decoded). -/
structure Metrics where
  refereed : Option Bool := none
deriving DecidableEq, Repr

/-- A record as consumed by the compute functions: a mapping that may or may
not contain the `bib_data` / `metrics` / `classifications` keys. -/
structure Record where
  bibcode : String := ""
  scix_id : String := ""
  bib_data : Option BibData := none
  metrics : Option Metrics := none
  classifications : Option StrOrList := none
deriving DecidableEq, Repr

/-- A raw inbound message before `_parse_master_pipeline_message`: every
field may be absent.  The JSON decoding of string-encoded `bib_data` /
`metrics` is modelled as already performed (decode failures become `{}`,
i.e. `some {}` here). -/
structure RawRecord where
  bibcode : Option String := none
  scix_id : Option String := none
  bib_data : Option BibData := none
  metrics : Option Metrics := none
  classifications : Option StrOrList := none
deriving DecidableEq, Repr

/-- The process-wide configuration (`config.py` keys read by `app.py`). -/
structure Config where
  DOCTYPE_RANKING : List (String × Int) := []
  RECENCY_BOOST_MULTIPLIER : Option ℚ := none
  RECENCY_BOOST_MAX_AGE_MONTHS : Option ℚ := none
  BOOST_WEIGHTS : List (String × ℚ) := []
  COLLECTION_RANKINGS : List (String × List (String × Option Int)) := []
  COLLECTIONS : Option (List String) := none
deriving DecidableEq, Repr

/-- Equality of `Except` results is decidable (needed to settle concrete
evaluations of the fallible compute functions by `decide`). -/
instance {e a : Type} [DecidableEq e] [DecidableEq a] : DecidableEq (Except e a) :=
  fun x y =>
    match x, y with
    | .ok v, .ok w =>
      if h : v = w then .isTrue (by rw [h])
      else .isFalse (by intro hc; cases hc; exact h rfl)
    | .error v, .error w =>
      if h : v = w then .isTrue (by rw [h])
      else .isFalse (by intro hc; cases hc; exact h rfl)
    | .ok _, .error _ => .isFalse (by intro hc; cases hc)
    | .error _, .ok _ => .isFalse (by intro hc; cases hc)

/-- Python dict lookup `d[k]` / `d.get(k)` on an association list. -/
def dictGet (d : List (String × ℚ)) (k : String) : Option ℚ :=
  (d.find? (fun p => p.1 == k)).map (fun p => p.2)

/-- Lookup in an Int-keyed association list (`rank_to_weight.get(rank, 0.0)`). -/
def dictGetInt (d : List (Int × ℚ)) (k : Int) : Option ℚ :=
  (d.find? (fun p => p.1 == k)).map (fun p => p.2)

/-- Lookup of a doctype in `DOCTYPE_RANKING`. -/
def rankingGet (d : List (String × Int)) (k : String) : Option Int :=
  (d.find? (fun p => p.1 == k)).map (fun p => p.2)

/-- Lookup of a source collection in `COLLECTION_RANKINGS`
(`collection_rankings.get(record_collection, {})`). -/
def rankingsGet (d : List (String × List (String × Option Int))) (k : String) :
    Option (List (String × Option Int)) :=
  (d.find? (fun p => p.1 == k)).map (fun p => p.2)

/-- Lookup of a target discipline in one sub-mapping
(`collection_table.get(discipline)`); the stored value may itself be `None`. -/
def tableGet (d : List (String × Option Int)) (k : String) : Option (Option Int) :=
  (d.find? (fun p => p.1 == k)).map (fun p => p.2)

/-- The in-code default for `config.get('COLLECTIONS', [...])`
(`app.py` lines 309, 312, 407). -/
def defaultCollections : List String :=
  ["astronomy", "physics", "earth_science", "planetary_science", "heliophysics", "general"]

/-- The list of configured disciplines. -/
def collectionsOf (cfg : Config) : List String :=
  cfg.COLLECTIONS.getD defaultCollections

/-- The recency decay multiplier `config.get('RECENCY_BOOST_MULTIPLIER', 0.1)`. -/
def recencyMultiplierOf (cfg : Config) : ℚ :=
  cfg.RECENCY_BOOST_MULTIPLIER.getD (1/10)

/-! ### Dates (CPython `datetime.strptime(s, "%Y-%m-%d")` and ordinals) -/

/-- A proleptic Gregorian calendar date. -/
structure Date where
  year : Nat
  month : Nat
  day : Nat
deriving DecidableEq, Repr

/-- Gregorian leap year test. -/
def isLeap (y : Nat) : Bool :=
  y % 4 == 0 && (y % 100 != 0 || y % 400 == 0)

/-- Number of days in a month. -/
def daysInMonth (y m : Nat) : Nat :=
  if m == 2 then (if isLeap y then 29 else 28)
  else if m == 4 || m == 6 || m == 9 || m == 11 then 30
  else 31

/-- Days in all years before year `y` (year 1 is the first year), as in
CPython `datetime._days_before_year`. -/
def daysBeforeYear (y : Nat) : Nat :=
  let p := y - 1
  p * 365 + p / 4 - p / 100 + p / 400

/-- Days in the given year before month `m`, as in CPython
`datetime._days_before_month`. -/
def daysBeforeMonth (y m : Nat) : Nat :=
  (List.range (m - 1)).foldl (fun acc i => acc + daysInMonth y (i + 1)) 0

/-- The proleptic Gregorian ordinal of a date (0001-01-01 has ordinal 1),
as in CPython `date.toordinal`. -/
def dateOrdinal (d : Date) : Nat :=
  daysBeforeYear d.year + daysBeforeMonth d.year d.month + d.day

/-- `True` iff the string is non-empty and all characters are ASCII digits. -/
def allDigits (s : String) : Bool :=
  s.length > 0 && s.all Char.isDigit

/-- `datetime.strptime(s, '%Y-%m-%d')` as a partial parse.  The CPython
regular expressions require the year to be exactly four digits and allow the
month and day to have one or two digits; the constructed `datetime` then
requires `1 ≤ year`, `1 ≤ month ≤ 12` and `1 ≤ day ≤ daysInMonth`. -/
def parseDate (s : String) : Option Date :=
  match s.splitOn "-" with
  | [ys, ms, ds] =>
    if ys.length == 4 && allDigits ys && ms.length ≤ 2 && allDigits ms
        && ds.length ≤ 2 && allDigits ds then
      let y := (ys.toNat?).getD 0
      let m := (ms.toNat?).getD 0
      let d := (ds.toNat?).getD 0
      if 1 ≤ y && 1 ≤ m && m ≤ 12 && 1 ≤ d && d ≤ daysInMonth y m then
        some ⟨y, m, d⟩
      else none
    else none
  | _ => none

/-! ### `_parse_master_pipeline_message` (app.py lines 85-159) -/

/-- Normalisation of the `classifications` value (app.py lines 116-124):
a non-empty string becomes a one-element list, an empty or absent value
becomes `[]`, a list is kept. -/
def parseClassifications : Option StrOrList → List String
  | some (.list l) => l
  | some (.str s) => if s = "" then [] else [s]
  | none => []

/-- `_parse_master_pipeline_message`: default missing identifiers to `""`,
default missing sub-mappings to `{}`, coerce `classifications` to a list. -/
def parseMasterPipelineMessage (raw : RawRecord) : Record :=
  { bibcode := raw.bibcode.getD ""
    scix_id := raw.scix_id.getD ""
    bib_data := some (raw.bib_data.getD {})
    metrics := some (raw.metrics.getD {})
    classifications := some (.list (parseClassifications raw.classifications)) }

/-! ### `compute_refereed_boost` (app.py lines 161-181) -/

/-- Truthiness of `record['metrics'].get('refereed', False)` when the
`metrics` key is present. -/
def metricsRefereed (r : Record) : Bool :=
  match r.metrics with
  | some m => m.refereed.getD false
  | none => false

/-- Truthiness of `record['bib_data'].get('refereed', False)` when the
`bib_data` key is present. -/
def bibDataRefereed (r : Record) : Bool :=
  match r.bib_data with
  | some bd => bd.refereed.getD false
  | none => false

/-- `compute_refereed_boost`: `1.0` if `metrics.refereed` is truthy, else
`1.0` if `bib_data.refereed` is truthy, else `0.0`. -/
def compute_refereed_boost (r : Record) : ℚ :=
  if metricsRefereed r then 1
  else if bibDataRefereed r then 1
  else 0

/-! ### `compute_doctype_boost` (app.py lines 183-212) -/

/-- Insert an integer into a strictly ascending list, keeping it strictly
ascending (used to realise `sorted(set(values))`). -/
def insertRank (x : Int) : List Int → List Int
  | [] => [x]
  | y :: ys =>
    if x < y then x :: y :: ys
    else if x = y then y :: ys
    else y :: insertRank x ys

/-- `sorted(set(l))`: the distinct values of `l` in ascending order. -/
def sortedRanks (l : List Int) : List Int :=
  l.foldr insertRank []

/-- `record['bib_data'].get('doctype', '').lower()` with `''` when the
`bib_data` key is absent. -/
def doctypeOf (r : Record) : String :=
  match r.bib_data with
  | some bd => (bd.doctype.getD "").toLower
  | none => ""

/-- `compute_doctype_boost`: ranks are mapped to scores evenly spaced on
[0,1] (lowest rank gets score 1); a doctype absent from the table scores 0;
an absent or empty `DOCTYPE_RANKING` yields 0.  When the table has exactly
one distinct rank, the comprehension
`{rank: 1 - (i / (len(unique_ranks) - 1)) ...}` divides by zero. -/
def compute_doctype_boost (cfg : Config) (r : Record) : Except String ℚ :=
  let doctype := doctypeOf r
  if cfg.DOCTYPE_RANKING = [] then .ok 0
  else
    let unique := sortedRanks (cfg.DOCTYPE_RANKING.map (fun p => p.2))
    if unique.length = 1 then .error "ZeroDivisionError"
    else
      match rankingGet cfg.DOCTYPE_RANKING doctype with
      | some rank => .ok (1 - ((unique.indexOf rank : ℚ)) / ((unique.length : ℚ) - 1))
      | none => .ok 0

/-! ### `compute_recency_boost` (app.py lines 214-273) -/

/-- Python truthiness of an optional string (`None` and `''` are falsy). -/
def strOpt (o : Option String) : Option String :=
  match o with
  | some s => if s = "" then none else some s
  | none => none

/-- The `pubdate` value of a record, `none` when absent or empty. -/
def pubdateOf (r : Record) : Option String :=
  strOpt (r.bib_data.bind (fun bd => bd.pubdate))

/-- The `entry_date` value of a record, `none` when absent or empty. -/
def entryDateOf (r : Record) : Option String :=
  strOpt (r.bib_data.bind (fun bd => bd.entry_date))

/-- The day-`00` substitution applied to `pubdate` only (app.py lines
237-238): `pub_date[:-2] + '01'` when the string ends in `-00`. -/
def fixDay00 (s : String) : String :=
  if s.endsWith "-00" then s.dropRight 2 ++ "01" else s

/-- `min(pub_datetime, entry_datetime)`: the chronologically earlier date. -/
def minDate (a b : Date) : Date :=
  if dateOrdinal a ≤ dateOrdinal b then a else b

/-- The reference-date selection of `compute_recency_boost` (app.py lines
224-259): each `return 1.0` of that section becomes `none`.  When both dates
are present, a parse failure of either yields `none`; when exactly one is
present, its parse failure yields `none`. -/
def recencyReferenceDate (r : Record) : Option Date :=
  match pubdateOf r, entryDateOf r with
  | none, none => none
  | some p, some e =>
    match parseDate (fixDay00 p), parseDate e with
    | some dp, some de => some (minDate dp de)
    | _, _ => none
  | some p, none => parseDate (fixDay00 p)
  | none, some e => parseDate e

/-- `age_months = (datetime.now() - reference_date).days / 30.44`. -/
def ageMonthsOf (now : Int) (d : Date) : ℚ :=
  ((now - (dateOrdinal d : Int) : Int) : ℚ) / (3044/100)

/-- `compute_recency_boost`: neutral `1.0` when no reference date is
selected; `1.0` when the age exceeds the hard-coded 24 months (the
`RECENCY_BOOST_MAX_AGE_MONTHS` configuration key is not consulted);
otherwise the reciprocal decay `1 / (1 + multiplier * age_months)`. -/
def compute_recency_boost (cfg : Config) (now : Int) (r : Record) : Except String ℚ :=
  match recencyReferenceDate r with
  | none => .ok 1
  | some ref =>
    let age_months := ageMonthsOf now ref
    if age_months > 24 then .ok 1
    else
      let multiplier := recencyMultiplierOf cfg
      if 1 + multiplier * age_months = 0 then .error "ZeroDivisionError"
      else .ok (1 / (1 + multiplier * age_months))

/-! ### `compute_collection_weights` (app.py lines 275-360) -/

/-- `str(v).lower().replace(' ', '_')`. -/
def normCollection (s : String) : String :=
  (s.toLower).replace " " "_"

/-- Python truthiness of the raw `classifications` / `database` values. -/
def truthySL : Option StrOrList → Bool
  | some (.str s) => s ≠ ""
  | some (.list l) => l ≠ []
  | none => false

/-- Raw collection source (app.py lines 286-294): prefer a truthy
`classifications`, else a truthy `bib_data.database`. -/
def rawCollectionValues (r : Record) : Option StrOrList :=
  if truthySL r.classifications then r.classifications
  else
    match r.bib_data with
    | some bd => if truthySL bd.database then bd.database else none
    | none => none

/-- The normalised own-collection list of a record (app.py lines 296-303):
lowercase, spaces to underscores, falsy entries dropped; an empty result
defaults to `["general"]`. -/
def recordCollectionsOf (r : Record) : List String :=
  let rc : List String :=
    match rawCollectionValues r with
    | some (.list l) => (l.filter (fun v => v ≠ "")).map normCollection
    | some (.str s) => if s = "" then [] else [normCollection s]
    | none => []
  if rc = [] then ["general"] else rc

/-- `all_ranks`: every non-`None` rank appearing in any sub-mapping of
`COLLECTION_RANKINGS` (app.py lines 315-319). -/
def collectRanks (cr : List (String × List (String × Option Int))) : List Int :=
  ((cr.map (fun p => p.2)).flatten).filterMap (fun p => p.2)

/-- `sorted(all_ranks, reverse=True)`: distinct ranks, descending. -/
def sortedDescRanks (l : List Int) : List Int :=
  (sortedRanks l).reverse

/-- The `for i, rank in enumerate(sorted_ranks)` loop building
`rank_to_weight` (app.py lines 328-337): a single rank gets weight `1.0`,
otherwise the `i`-th rank (descending order) gets `1.0 - 0.9 * i / (n - 1)`.
`n` is the total number of distinct ranks and `i` the running index. -/
def rankToWeight (n : Nat) : Nat → List Int → List (Int × ℚ)
  | _, [] => []
  | i, rank :: rest =>
    (rank, if n = 1 then 1 else 1 - (9/10) * (i : ℚ) / ((n : ℚ) - 1))
      :: rankToWeight n (i + 1) rest

/-- One iteration of the inner loop of app.py lines 350-356: look the
record collection up in `COLLECTION_RANKINGS` and the discipline in the
sub-mapping; a present, non-`None` rank contributes
`rank_to_weight.get(rank, 0.0)` to the running maximum. -/
def weightStep (cr : List (String × List (String × Option Int)))
    (r2w : List (Int × ℚ)) (discipline : String) (mx : ℚ) (rc : String) : ℚ :=
  match rankingsGet cr rc with
  | some table =>
    match tableGet table discipline with
    | some (some rank) => max mx ((dictGetInt r2w rank).getD 0)
    | _ => mx
  | none => mx

/-- The inner maximum of app.py lines 350-356: fold `weightStep` over the
record collections, starting from `max_weight = 0.0`. -/
def disciplineMaxWeight (cr : List (String × List (String × Option Int)))
    (r2w : List (Int × ℚ)) (recordCollections : List String)
    (discipline : String) : ℚ :=
  recordCollections.foldl (weightStep cr r2w discipline) 0

/-- `compute_collection_weights`: returns one `<discipline>_weight` entry
per configured discipline.  Absent or empty `COLLECTION_RANKINGS`, an empty
rank set, and a record whose own collections contain `general` all yield
weight `1.0` everywhere; otherwise each discipline gets the maximum
rank-derived weight across the record collections. -/
def compute_collection_weights (cfg : Config) (r : Record) : List (String × ℚ) :=
  let record_collections := recordCollectionsOf r
  let cols := collectionsOf cfg
  if cfg.COLLECTION_RANKINGS = [] then
    cols.map (fun c => (c ++ "_weight", (1 : ℚ)))
  else
    let all_ranks := sortedDescRanks (collectRanks cfg.COLLECTION_RANKINGS)
    if all_ranks = [] then
      cols.map (fun c => (c ++ "_weight", (1 : ℚ)))
    else
      let r2w := rankToWeight all_ranks.length 0 all_ranks
      if "general" ∈ record_collections then
        cols.map (fun c => (c ++ "_weight", (1 : ℚ)))
      else
        cols.map (fun c => (c ++ "_weight",
          disciplineMaxWeight cfg.COLLECTION_RANKINGS r2w record_collections c))

/-! ### `compute_final_boost` (app.py lines 362-420) -/

/-- The in-code default BOOST_WEIGHTS (app.py lines 384-388), used when the
configured table is absent or empty.  Note it differs from the shipped
`config.py` values. -/
def defaultBoostWeights : List (String × ℚ) :=
  [("refereed_boost", 3/5), ("doctype_boost", 2/5), ("recency_boost", 0)]

/-- `weights` after the `if not weights` fallback (app.py lines 381-388). -/
def effectiveBoostWeights (cfg : Config) : List (String × ℚ) :=
  if cfg.BOOST_WEIGHTS = [] then defaultBoostWeights else cfg.BOOST_WEIGHTS

/-- Python dict indexing `d[k]`, raising `KeyError` when absent. -/
def dictIndex (d : List (String × ℚ)) (k : String) : Except String ℚ :=
  match dictGet d k with
  | some v => .ok v
  | none => .error "KeyError"

/-- Step 2 of `compute_final_boost` (app.py lines 390-401): normalise the
weight table and take the weighted average of the three base factors
(`normalized_weights[...]` is dict indexing, so a table missing one of the
three keys raises `KeyError`); when the weights sum to ≤ 0, fall back to
the simple mean. -/
def combineBoostFactor (weights : List (String × ℚ)) (rb db recb : ℚ) :
    Except String ℚ :=
  let total := (weights.map (fun p => p.2)).sum
  if total > 0 then
    let nw := weights.map (fun p => (p.1, p.2 / total))
    match dictGet nw "refereed_boost", dictGet nw "doctype_boost",
        dictGet nw "recency_boost" with
    | some wr, some wd, some wrec => .ok (rb * wr + db * wd + recb * wrec)
    | _, _, _ => .error "KeyError"
  else
    .ok ((rb + db + recb) / 3)

/-- Step 4 of `compute_final_boost` (app.py lines 409-411): one
`<discipline>_final_boost = collection_weights[<discipline>_weight] *
boost_factor` entry per configured discipline; a missing weight key raises
`KeyError`. -/
def finalBoostsList (cw : List (String × ℚ)) (boost_factor : ℚ) :
    List String → Except String (List (String × ℚ))
  | [] => .ok []
  | c :: cs =>
    match dictGet cw (c ++ "_weight") with
    | some w =>
      match finalBoostsList cw boost_factor cs with
      | .ok rest => .ok ((c ++ "_final_boost", w * boost_factor) :: rest)
      | .error e => .error e
    | none => .error "KeyError"

/-- `compute_final_boost`: the three base factors, the weighted-average
`boost_factor` (simple mean when the weights sum to ≤ 0), the collection
weights, and one `<discipline>_final_boost = weight * boost_factor` entry
per configured discipline, assembled into one result mapping. -/
def compute_final_boost (cfg : Config) (now : Int) (r : Record) :
    Except String (List (String × ℚ)) :=
  let rb := compute_refereed_boost r
  match compute_doctype_boost cfg r with
  | .error e => .error e
  | .ok db =>
    match compute_recency_boost cfg now r with
    | .error e => .error e
    | .ok recb =>
      match combineBoostFactor (effectiveBoostWeights cfg) rb db recb with
      | .error e => .error e
      | .ok boost_factor =>
        let collection_weights := compute_collection_weights cfg r
        match finalBoostsList collection_weights boost_factor (collectionsOf cfg) with
        | .error e => .error e
        | .ok final_boosts =>
          .ok ([("refereed_boost", rb), ("doctype_boost", db),
                ("recency_boost", recb)]
               ++ collection_weights ++ final_boosts
               ++ [("boost_factor", boost_factor)])

/-! ### `store_boost_factors` (app.py lines 424-497) and
`adsboost/models.py` -/

/-- One row of the `boost_factors` table (`models.py`).  Columns that the
store operation does not assign are `none` (SQL `NULL`). -/
structure StoredRow where
  bibcode : String
  scix_id : String
  refereed_boost : Option ℚ := none
  doctype_boost : Option ℚ := none
  recency_boost : Option ℚ := none
  boost_factor : Option ℚ := none
  astronomy_weight : Option ℚ := none
  physics_weight : Option ℚ := none
  earth_science_weight : Option ℚ := none
  planetary_science_weight : Option ℚ := none
  heliophysics_weight : Option ℚ := none
  general_weight : Option ℚ := none
  astronomy_final_boost : Option ℚ := none
  physics_final_boost : Option ℚ := none
  earth_science_final_boost : Option ℚ := none
  planetary_science_final_boost : Option ℚ := none
  heliophysics_final_boost : Option ℚ := none
  general_final_boost : Option ℚ := none
deriving DecidableEq, Repr

/-- The create branch of `store_boost_factors` (app.py lines 466-490): the
three base factors are read with indexing, the weight and final-boost
columns with `.get`; no value is ever assigned to the `boost_factor`
column. -/
def storeCreateRow (bibcode scix_id : String) (bf : List (String × ℚ)) :
    Except String StoredRow :=
  match dictGet bf "refereed_boost", dictGet bf "doctype_boost",
      dictGet bf "recency_boost" with
  | some rb, some db, some recb =>
    .ok { bibcode := bibcode
          scix_id := scix_id
          refereed_boost := some rb
          doctype_boost := some db
          recency_boost := some recb
          boost_factor := none
          astronomy_weight := dictGet bf "astronomy_weight"
          physics_weight := dictGet bf "physics_weight"
          earth_science_weight := dictGet bf "earth_science_weight"
          planetary_science_weight := dictGet bf "planetary_science_weight"
          heliophysics_weight := dictGet bf "heliophysics_weight"
          general_weight := dictGet bf "general_weight"
          astronomy_final_boost := dictGet bf "astronomy_final_boost"
          physics_final_boost := dictGet bf "physics_final_boost"
          earth_science_final_boost := dictGet bf "earth_science_final_boost"
          planetary_science_final_boost := dictGet bf "planetary_science_final_boost"
          heliophysics_final_boost := dictGet bf "heliophysics_final_boost"
          general_final_boost := dictGet bf "general_final_boost" }
  | _, _, _ => .error "KeyError"

/-- The update branch of `store_boost_factors` (app.py lines 442-464): the
same fields are reassigned on the existing row; the `boost_factor` column is
left untouched. -/
def storeUpdateRow (row : StoredRow) (bf : List (String × ℚ)) :
    Except String StoredRow :=
  match dictGet bf "refereed_boost", dictGet bf "doctype_boost",
      dictGet bf "recency_boost" with
  | some rb, some db, some recb =>
    .ok { row with
          refereed_boost := some rb
          doctype_boost := some db
          recency_boost := some recb
          astronomy_weight := dictGet bf "astronomy_weight"
          physics_weight := dictGet bf "physics_weight"
          earth_science_weight := dictGet bf "earth_science_weight"
          planetary_science_weight := dictGet bf "planetary_science_weight"
          heliophysics_weight := dictGet bf "heliophysics_weight"
          general_weight := dictGet bf "general_weight"
          astronomy_final_boost := dictGet bf "astronomy_final_boost"
          physics_final_boost := dictGet bf "physics_final_boost"
          earth_science_final_boost := dictGet bf "earth_science_final_boost"
          planetary_science_final_boost := dictGet bf "planetary_science_final_boost"
          heliophysics_final_boost := dictGet bf "heliophysics_final_boost"
          general_final_boost := dictGet bf "general_final_boost" }
  | _, _, _ => .error "KeyError"

/-! ### `send_to_master_pipeline` (app.py lines 499-548) -/

/-- The outbound response message (the numeric and identifier fields of the
`BoostResponseRecord`; the `created` / `modified` timestamps are
clock-dependent strings and are not modelled). -/
structure OutMessage where
  bibcode : String
  scix_id : String
  status : Int
  doctype_boost : ℚ
  refereed_boost : ℚ
  recency_boost : ℚ
  boost_factor : ℚ
  astronomy_final_boost : ℚ
  physics_final_boost : ℚ
  earth_science_final_boost : ℚ
  planetary_science_final_boost : ℚ
  heliophysics_final_boost : ℚ
  general_final_boost : ℚ
deriving DecidableEq, Repr

/-- The message dictionary of app.py lines 519-535: every numeric field is
read from the computed mapping with `.get(key, 0.0)`. -/
def buildResponseMessage (parsed : Record) (bf : List (String × ℚ)) : OutMessage :=
  { bibcode := parsed.bibcode
    scix_id := parsed.scix_id
    status := 3
    doctype_boost := (dictGet bf "doctype_boost").getD 0
    refereed_boost := (dictGet bf "refereed_boost").getD 0
    recency_boost := (dictGet bf "recency_boost").getD 0
    boost_factor := (dictGet bf "boost_factor").getD 0
    astronomy_final_boost := (dictGet bf "astronomy_final_boost").getD 0
    physics_final_boost := (dictGet bf "physics_final_boost").getD 0
    earth_science_final_boost := (dictGet bf "earth_science_final_boost").getD 0
    planetary_science_final_boost := (dictGet bf "planetary_science_final_boost").getD 0
    heliophysics_final_boost := (dictGet bf "heliophysics_final_boost").getD 0
    general_final_boost := (dictGet bf "general_final_boost").getD 0 }

/-- `send_to_master_pipeline`: re-parses the original record, drops the
message when the bibcode is empty, otherwise builds the response message. -/
def send_to_master_pipeline (raw : RawRecord) (bf : List (String × ℚ)) :
    Option OutMessage :=
  let parsed := parseMasterPipelineMessage raw
  if parsed.bibcode = "" then none
  else some (buildResponseMessage parsed bf)

/-! ### `process_boost_request` (app.py lines 54-83) -/

/-- Outcome of processing one inbound request. -/
inductive ProcessOutcome where
  | rejected
  | processed (result : List (String × ℚ)) (message : Option OutMessage)
deriving DecidableEq, Repr

/-- `process_boost_request`: parse the message; when the parsed bibcode is
falsy the record is dropped (logged, not scored) even if `scix_id` is
present; otherwise the boost factors are computed, stored, and sent back. -/
def process_boost_request (cfg : Config) (now : Int) (raw : RawRecord) :
    Except String ProcessOutcome :=
  let parsed := parseMasterPipelineMessage raw
  if parsed.bibcode = "" then .ok .rejected
  else
    match compute_final_boost cfg now parsed with
    | .error e => .error e
    | .ok bf => .ok (.processed bf (send_to_master_pipeline raw bf))

/-! ### The shipped configuration (`config.py`) -/

/-- The configuration values shipped in `config.py` (rationals replace the
float literals exactly). -/
def shippedConfig : Config :=
  { DOCTYPE_RANKING :=
      [("article", 1), ("eprint", 1), ("inproceedings", 2), ("inbook", 1),
       ("abstract", 4), ("book", 1), ("bookreview", 4), ("catalog", 2),
       ("circular", 3), ("erratum", 6), ("mastersthesis", 3), ("newsletter", 5),
       ("obituary", 6), ("phdthesis", 3), ("pressrelease", 7), ("proceedings", 3),
       ("proposal", 4), ("software", 2), ("talk", 4), ("techreport", 3),
       ("misc", 8)]
    RECENCY_BOOST_MULTIPLIER := some (1/10)
    RECENCY_BOOST_MAX_AGE_MONTHS := some 24
    BOOST_WEIGHTS :=
      [("refereed_boost", 2/5), ("doctype_boost", 3/5), ("recency_boost", 0)]
    COLLECTION_RANKINGS :=
      [("astrophysics",
         [("astrophysics", some 1), ("planetary", some 4), ("physics", some 2),
          ("heliophysics", some 4), ("general", some 3), ("earthscience", some 6)]),
       ("physics",
         [("physics", some 1), ("astrophysics", some 3), ("planetary", some 3),
          ("heliophysics", some 3), ("general", some 2), ("earthscience", some 3)]),
       ("earthscience",
         [("earthscience", some 1), ("planetary", some 4), ("general", some 2),
          ("astrophysics", some 6), ("physics", some 3), ("heliophysics", some 5)]),
       ("planetary",
         [("planetary", some 1), ("astrophysics", some 5), ("earthscience", some 4),
          ("physics", some 2), ("heliophysics", some 2), ("general", some 3)]),
       ("heliophysics",
         [("heliophysics", some 1), ("astrophysics", some 6), ("physics", some 2),
          ("planetary", some 3), ("general", some 2), ("earthscience", some 4)]),
       ("general",
         [("general", some 1), ("astrophysics", some 1), ("physics", some 1),
          ("planetary", some 1), ("earthscience", some 1), ("heliophysics", some 1)])]
    COLLECTIONS :=
      some ["astrophysics", "physics", "earthscience", "planetary",
            "heliophysics", "general"] }

/-! ### Helper lemmas -/

theorem mem_insertRank {x a : Int} {l : List Int} :
    x ∈ insertRank a l ↔ x = a ∨ x ∈ l := by
  induction l with
  | nil => simp [insertRank]
  | cons y ys ih =>
    unfold insertRank
    split
    · simp only [List.mem_cons]
    · split
      · rename_i h1 h2
        subst h2
        simp only [List.mem_cons]
        tauto
      · simp only [List.mem_cons, ih]
        tauto

theorem mem_sortedRanks {x : Int} {l : List Int} :
    x ∈ sortedRanks l ↔ x ∈ l := by
  induction l with
  | nil => simp [sortedRanks]
  | cons y ys ih =>
    simp only [sortedRanks, List.foldr_cons] at *
    rw [mem_insertRank, ih, List.mem_cons]

theorem mem_sortedDescRanks {x : Int} {l : List Int} :
    x ∈ sortedDescRanks l ↔ x ∈ l := by
  rw [sortedDescRanks, List.mem_reverse, mem_sortedRanks]

/-- Values found by `dictGet` are values of the association list. -/
theorem dictGet_mem {d : List (String × ℚ)} {k : String} {v : ℚ}
    (h : dictGet d k = some v) : ∃ p ∈ d, p.2 = v := by
  unfold dictGet at h
  cases hf : d.find? (fun p => p.1 == k) with
  | none => rw [hf] at h; simp at h
  | some p =>
    rw [hf] at h
    simp only [Option.map_some'] at h
    exact ⟨p, List.mem_of_find?_eq_some hf, Option.some.inj h⟩

/-- Values found by `dictGetInt` are values of the association list. -/
theorem dictGetInt_mem {d : List (Int × ℚ)} {k : Int} {v : ℚ}
    (h : dictGetInt d k = some v) : ∃ p ∈ d, p.2 = v := by
  unfold dictGetInt at h
  cases hf : d.find? (fun p => p.1 == k) with
  | none => rw [hf] at h; simp at h
  | some p =>
    rw [hf] at h
    simp only [Option.map_some'] at h
    exact ⟨p, List.mem_of_find?_eq_some hf, Option.some.inj h⟩

/-- A rank found in `DOCTYPE_RANKING` is among its values. -/
theorem rankingGet_mem {d : List (String × Int)} {k : String} {v : Int}
    (h : rankingGet d k = some v) : v ∈ d.map (fun p => p.2) := by
  unfold rankingGet at h
  cases hf : d.find? (fun p => p.1 == k) with
  | none => rw [hf] at h; simp at h
  | some p =>
    rw [hf] at h
    simp only [Option.map_some'] at h
    exact (Option.some.inj h) ▸ List.mem_map_of_mem _ (List.mem_of_find?_eq_some hf)

/-- If a key is among the keys of an association list, `dictGet` succeeds. -/
theorem dictGet_isSome_of_mem_keys {d : List (String × ℚ)} {k : String}
    (h : k ∈ d.map (fun p => p.1)) : (dictGet d k).isSome := by
  induction d with
  | nil => simp at h
  | cons p ps ih =>
    simp only [List.map_cons, List.mem_cons] at h
    by_cases hk : (p.1 == k) = true
    · simp [dictGet, List.find?_cons, hk]
    · have hmem : k ∈ ps.map (fun q => q.1) := by
        rcases h with h | h
        · exact absurd (by simp [h]) hk
        · exact h
      rw [Bool.not_eq_true] at hk
      simpa [dictGet, List.find?_cons, hk] using ih hmem


/-- The refereed factor is always 0 or 1, hence within `[0, 1]`. -/
theorem compute_refereed_boost_bounds (r : Record) :
    0 ≤ compute_refereed_boost r ∧ compute_refereed_boost r ≤ 1 := by
  unfold compute_refereed_boost
  split
  · norm_num
  · split <;> norm_num

/-- Whenever the doctype factor returns a value, it lies in `[0, 1]`. -/
theorem compute_doctype_boost_bounds {cfg : Config} {r : Record} {q : ℚ}
    (h : compute_doctype_boost cfg r = .ok q) : 0 ≤ q ∧ q ≤ 1 := by
  unfold compute_doctype_boost at h
  split at h
  · cases h
    norm_num
  · dsimp only at h
    split at h
    · cases h
    · rename_i hlen1
      split at h
      · rename_i rank hrg
        cases h
        set unique := sortedRanks (cfg.DOCTYPE_RANKING.map (fun p => p.2)) with hu
        have hmem : rank ∈ unique := mem_sortedRanks.mpr (rankingGet_mem hrg)
        have hidx : unique.indexOf rank < unique.length :=
          List.indexOf_lt_length.mpr hmem
        have hpos : 0 < unique.length := List.length_pos.mpr (List.ne_nil_of_mem hmem)
        have hlen2 : 2 ≤ unique.length := by omega
        have hcast : ((unique.indexOf rank : ℚ)) ≤ (unique.length : ℚ) - 1 := by
          have h1 : (unique.indexOf rank : Nat) ≤ unique.length - 1 := by omega
          have h2 : ((unique.indexOf rank : Nat) : ℚ) ≤ ((unique.length - 1 : Nat) : ℚ) := by
            exact_mod_cast h1
          rwa [Nat.cast_sub (by omega), Nat.cast_one] at h2
        have hdenpos : 0 < (unique.length : ℚ) - 1 := by
          have : (2 : ℚ) ≤ (unique.length : ℚ) := by exact_mod_cast hlen2
          linarith
        constructor
        · have : ((unique.indexOf rank : ℚ)) / ((unique.length : ℚ) - 1) ≤ 1 :=
            (div_le_one hdenpos).mpr hcast
          linarith
        · have : 0 ≤ ((unique.indexOf rank : ℚ)) / ((unique.length : ℚ) - 1) :=
            div_nonneg (by positivity) (le_of_lt hdenpos)
          linarith
      · cases h
        norm_num

/-- Whenever the recency factor returns a value for a record whose reference
date is not in the future, under a non-negative multiplier, it lies in
`[0, 1]`. -/
theorem compute_recency_boost_bounds {cfg : Config} {now : Int} {r : Record} {q : ℚ}
    (hm : 0 ≤ recencyMultiplierOf cfg)
    (hdate : ∀ d, recencyReferenceDate r = some d → (dateOrdinal d : Int) ≤ now)
    (h : compute_recency_boost cfg now r = .ok q) : 0 ≤ q ∧ q ≤ 1 := by
  unfold compute_recency_boost at h
  split at h
  · cases h
    norm_num
  · rename_i ref href
    dsimp only at h
    have hage : 0 ≤ ageMonthsOf now ref := by
      unfold ageMonthsOf
      apply div_nonneg
      · have hd := hdate ref href
        have hnn : (0 : ℤ) ≤ now - (dateOrdinal ref : Int) := by omega
        exact_mod_cast hnn
      · norm_num
    have hden1 : (1 : ℚ) ≤ 1 + recencyMultiplierOf cfg * ageMonthsOf now ref := by
      nlinarith [mul_nonneg hm hage]
    split at h
    · cases h
      norm_num
    · split at h
      · cases h
      · cases h
        constructor
        · apply div_nonneg
          · norm_num
          · linarith
        · rw [div_le_one (by linarith)]
          exact hden1

/-- Every weight produced by the `rank_to_weight` construction lies in
`[0, 1]` (in fact in `[1/10, 1]`). -/
theorem rankToWeight_bounds {n : Nat} :
    ∀ (l : List Int) (i : Nat), i + l.length ≤ n →
      ∀ p ∈ rankToWeight n i l, 0 ≤ p.2 ∧ p.2 ≤ 1 := by
  intro l
  induction l with
  | nil =>
    intro i _ p hp
    simp [rankToWeight] at hp
  | cons rank rest ih =>
    intro i hle p hp
    simp only [List.length_cons] at hle
    rw [rankToWeight, List.mem_cons] at hp
    rcases hp with hp | hp
    · subst hp
      dsimp only
      by_cases hn : n = 1
      · rw [if_pos hn]
        norm_num
      · rw [if_neg hn]
        have hn2 : 2 ≤ n := by omega
        have hi : i ≤ n - 1 := by omega
        have hcast : (i : ℚ) ≤ (n : ℚ) - 1 := by
          have h2 : ((i : Nat) : ℚ) ≤ ((n - 1 : Nat) : ℚ) := by exact_mod_cast hi
          rwa [Nat.cast_sub (by omega), Nat.cast_one] at h2
        have hdenpos : 0 < (n : ℚ) - 1 := by
          have : (2 : ℚ) ≤ (n : ℚ) := by exact_mod_cast hn2
          linarith
        constructor
        · have hfrac : (9 / 10 : ℚ) * (i : ℚ) / ((n : ℚ) - 1) ≤ 9 / 10 := by
            rw [div_le_iff₀ hdenpos]
            nlinarith
          linarith
        · have hfrac : 0 ≤ (9 / 10 : ℚ) * (i : ℚ) / ((n : ℚ) - 1) :=
            div_nonneg (by positivity) (le_of_lt hdenpos)
          linarith
    · exact ih (i + 1) (by omega) p hp

/-- One step of the discipline-maximum loop preserves membership of the
running maximum in `[0, 1]`. -/
theorem weightStep_bounds {cr : List (String × List (String × Option Int))}
    {r2w : List (Int × ℚ)} (hr2w : ∀ p ∈ r2w, 0 ≤ p.2 ∧ p.2 ≤ 1)
    (disc : String) {mx : ℚ} (hmx : 0 ≤ mx ∧ mx ≤ 1) (rc : String) :
    0 ≤ weightStep cr r2w disc mx rc ∧ weightStep cr r2w disc mx rc ≤ 1 := by
  have hgetD : ∀ rank : Int,
      0 ≤ (dictGetInt r2w rank).getD 0 ∧ (dictGetInt r2w rank).getD 0 ≤ 1 := by
    intro rank
    cases hg : dictGetInt r2w rank with
    | none => norm_num
    | some v =>
      obtain ⟨p, hpmem, hpv⟩ := dictGetInt_mem hg
      have hb := hr2w p hpmem
      simp only [Option.getD_some]
      exact hpv ▸ hb
  unfold weightStep
  split
  · split
    · rename_i rank _
      exact ⟨le_max_of_le_left hmx.1, max_le hmx.2 (hgetD rank).2⟩
    · exact hmx
  · exact hmx

/-- The discipline maximum lies in `[0, 1]` whenever all candidate weights
do. -/
theorem disciplineMaxWeight_bounds {cr : List (String × List (String × Option Int))}
    {r2w : List (Int × ℚ)} (hr2w : ∀ p ∈ r2w, 0 ≤ p.2 ∧ p.2 ≤ 1)
    (rcs : List String) (disc : String) :
    0 ≤ disciplineMaxWeight cr r2w rcs disc ∧
      disciplineMaxWeight cr r2w rcs disc ≤ 1 := by
  unfold disciplineMaxWeight
  have haux : ∀ (l : List String) (mx : ℚ), 0 ≤ mx ∧ mx ≤ 1 →
      0 ≤ l.foldl (weightStep cr r2w disc) mx ∧
        l.foldl (weightStep cr r2w disc) mx ≤ 1 := by
    intro l
    induction l with
    | nil => intro mx hmx; simpa using hmx
    | cons rc rest ih =>
      intro mx hmx
      rw [List.foldl_cons]
      exact ih _ (weightStep_bounds hr2w disc hmx rc)
  exact haux rcs 0 (by norm_num)

/-- Every weight in the output of the collection-weight resolver lies in
`[0, 1]`. -/
theorem compute_collection_weights_bounds (cfg : Config) (r : Record) :
    ∀ p ∈ compute_collection_weights cfg r, 0 ≤ p.2 ∧ p.2 ≤ 1 := by
  intro p hp
  unfold compute_collection_weights at hp
  split at hp
  · obtain ⟨c, _, hc⟩ := List.mem_map.mp hp
    rw [← hc]
    norm_num
  · dsimp only at hp
    split at hp
    · obtain ⟨c, _, hc⟩ := List.mem_map.mp hp
      rw [← hc]
      norm_num
    · split at hp
      · obtain ⟨c, _, hc⟩ := List.mem_map.mp hp
        rw [← hc]
        norm_num
      · obtain ⟨c, _, hc⟩ := List.mem_map.mp hp
        rw [← hc]
        exact disciplineMaxWeight_bounds
          (rankToWeight_bounds _ 0 (by omega)) _ _

/-- With a three-entry weight table of positive total, the combiner returns
the explicit weighted average. -/
theorem combineBoostFactor_eval {a b c rb db recb : ℚ}
    (htot : 0 < a + (b + c)) :
    combineBoostFactor [("refereed_boost", a), ("doctype_boost", b),
        ("recency_boost", c)] rb db recb =
      .ok (rb * (a / (a + (b + c))) + db * (b / (a + (b + c)))
           + recb * (c / (a + (b + c)))) := by
  unfold combineBoostFactor
  simp only [List.map_cons, List.map_nil, List.sum_cons, List.sum_nil, add_zero]
  rw [if_pos htot]
  rfl

/-- With a three-entry weight table of non-positive total, the combiner
returns the simple mean. -/
theorem combineBoostFactor_eval_mean {a b c rb db recb : ℚ}
    (htot : ¬ (0 < a + (b + c))) :
    combineBoostFactor [("refereed_boost", a), ("doctype_boost", b),
        ("recency_boost", c)] rb db recb = .ok ((rb + db + recb) / 3) := by
  unfold combineBoostFactor
  simp only [List.map_cons, List.map_nil, List.sum_cons, List.sum_nil, add_zero]
  rw [if_neg htot]

/-- The combined boost factor lies in `[0, 1]` whenever the weight table has
the documented three-entry shape with non-negative weights and the three
base factors lie in `[0, 1]`. -/
theorem combineBoostFactor_bounds {a b c rb db recb q : ℚ}
    (ha : 0 ≤ a) (hb : 0 ≤ b) (hc : 0 ≤ c)
    (hrb : 0 ≤ rb ∧ rb ≤ 1) (hdb : 0 ≤ db ∧ db ≤ 1) (hrecb : 0 ≤ recb ∧ recb ≤ 1)
    (h : combineBoostFactor [("refereed_boost", a), ("doctype_boost", b),
        ("recency_boost", c)] rb db recb = .ok q) :
    0 ≤ q ∧ q ≤ 1 := by
  by_cases htot : 0 < a + (b + c)
  · rw [combineBoostFactor_eval htot] at h
    cases h
    have hda : 0 ≤ a / (a + (b + c)) := div_nonneg ha (le_of_lt htot)
    have hdb2 : 0 ≤ b / (a + (b + c)) := div_nonneg hb (le_of_lt htot)
    have hdc : 0 ≤ c / (a + (b + c)) := div_nonneg hc (le_of_lt htot)
    have hsum : a / (a + (b + c)) + b / (a + (b + c)) + c / (a + (b + c)) = 1 := by
      field_simp
      ring
    constructor
    · have t1 := mul_nonneg hrb.1 hda
      have t2 := mul_nonneg hdb.1 hdb2
      have t3 := mul_nonneg hrecb.1 hdc
      linarith
    · have t1 : rb * (a / (a + (b + c))) ≤ a / (a + (b + c)) :=
        mul_le_of_le_one_left hda hrb.2
      have t2 : db * (b / (a + (b + c))) ≤ b / (a + (b + c)) :=
        mul_le_of_le_one_left hdb2 hdb.2
      have t3 : recb * (c / (a + (b + c))) ≤ c / (a + (b + c)) :=
        mul_le_of_le_one_left hdc hrecb.2
      linarith
  · rw [combineBoostFactor_eval_mean htot] at h
    cases h
    constructor
    · have : 0 ≤ rb + db + recb := by linarith
      positivity
    · rw [div_le_one (by norm_num)]
      linarith

/-- Every entry of a successfully built final-boost list is a product of a
looked-up collection weight with the combined boost factor. -/
theorem finalBoostsList_mem {cw : List (String × ℚ)} {bf : ℚ} :
    ∀ {cols : List String} {fbs : List (String × ℚ)},
      finalBoostsList cw bf cols = .ok fbs →
      ∀ p ∈ fbs, ∃ c w, dictGet cw (c ++ "_weight") = some w ∧
        p = (c ++ "_final_boost", w * bf) := by
  intro cols
  induction cols with
  | nil =>
    intro fbs h p hp
    cases h
    simp at hp
  | cons c cs ih =>
    intro fbs h p hp
    unfold finalBoostsList at h
    split at h
    · rename_i w hw
      split at h
      · rename_i rest hrest
        cases h
        rcases List.mem_cons.mp hp with hp | hp
        · exact ⟨c, w, hw, hp⟩
        · exact ih hrest p hp
      · cases h
    · cases h

/-- The keys of the collection-weight mapping are exactly the configured
discipline names suffixed with `_weight`, in order, on every branch of the
resolver. -/
theorem compute_collection_weights_keys (cfg : Config) (r : Record) :
    (compute_collection_weights cfg r).map (fun p => p.1)
      = (collectionsOf cfg).map (fun c => c ++ "_weight") := by
  unfold compute_collection_weights
  split
  · rw [List.map_map]
    rfl
  · dsimp only
    split
    · rw [List.map_map]
      rfl
    · split
      · rw [List.map_map]
        rfl
      · rw [List.map_map]
        rfl

/-! ### Concrete inputs -/

/-- A representative inbound message (identifiers from the test suite, the
shipped collection name `astrophysics`, a refereed article, no dates). -/
def raw1 : RawRecord :=
  { bibcode := some "2022ApJ...931...44P"
    scix_id := some "scix:75M6-3WST-4DM1"
    bib_data := some { doctype := some "article" }
    metrics := some { refereed := some true }
    classifications := some (.list ["astrophysics"]) }

/-- The parsed form of `raw1`. -/
def rec1 : Record := parseMasterPipelineMessage raw1

/-- The mapping computed by `compute_final_boost` for `rec1` under the
shipped configuration. -/
def c1result : List (String × ℚ) :=
  [("refereed_boost", 1), ("doctype_boost", 1), ("recency_boost", 1),
   ("astrophysics_weight", 1/10), ("physics_weight", 7/25),
   ("earthscience_weight", 1), ("planetary_weight", 16/25),
   ("heliophysics_weight", 16/25), ("general_weight", 23/50),
   ("astrophysics_final_boost", 1/10), ("physics_final_boost", 7/25),
   ("earthscience_final_boost", 1), ("planetary_final_boost", 16/25),
   ("heliophysics_final_boost", 16/25), ("general_final_boost", 23/50),
   ("boost_factor", 1)]

/-- An inbound message with a `scix_id` but no `bibcode`. -/
def rawScixOnly : RawRecord := { scix_id := some "scix:75M6-3WST-4DM1" }

/-- A record whose only date is in the future relative to the chosen clock. -/
def recFuture : Record := { bib_data := some { pubdate := some "2026-01-01" } }

/-- A configuration whose doctype table assigns a single distinct rank. -/
def cfgSingleRank : Config := { DOCTYPE_RANKING := [("article", 1), ("book", 1)] }

/-- A record with a parseable `pubdate` and an unparseable `entry_date`. -/
def recBothDates : Record :=
  { bib_data := some { pubdate := some "2020-01-01", entry_date := some "not-a-date" } }

/-- A record with only a `pubdate`, carrying the day-`00` convention. -/
def recPub00 : Record := { bib_data := some { pubdate := some "2020-05-00" } }

/-- The shipped configuration with the maximum-age knob raised to 48. -/
def cfg48 : Config := { shippedConfig with RECENCY_BOOST_MAX_AGE_MONTHS := some 48 }

/-- A record with only a `pubdate` of 2020-01-01 (ordinal 737425). -/
def recJan2020 : Record := { bib_data := some { pubdate := some "2020-01-01" } }

/-- A record where `metrics.refereed` is falsy and `bib_data.refereed`
truthy. -/
def recConflictMetricsFalse : Record :=
  { bib_data := some { refereed := some true }
    metrics := some { refereed := some false } }

/-- A computed mapping holding only the three base factors. -/
def bf3 : List (String × ℚ) :=
  [("refereed_boost", 1), ("doctype_boost", 1), ("recency_boost", 1)]

/-- The row created from `bf3`: every unsupplied column is `NULL`. -/
def row3 : StoredRow :=
  { bibcode := "b", scix_id := "s", refereed_boost := some 1,
    doctype_boost := some 1, recency_boost := some 1 }

/-! ### Claim theorems -/

/-- C5: when every configured doctype shares one distinct rank, the
rank-to-score comprehension divides by zero and `compute_doctype_boost`
raises instead of returning 1.0 for the configured doctypes (the code
contradicts the specified `|U| = 1` fallback). -/
theorem c5_single_rank_division_error (cfg : Config) (r : Record)
    (hne : cfg.DOCTYPE_RANKING ≠ [])
    (h1 : (sortedRanks (cfg.DOCTYPE_RANKING.map (fun p => p.2))).length = 1) :
    compute_doctype_boost cfg r = .error "ZeroDivisionError" := by
  unfold compute_doctype_boost
  rw [if_neg hne]
  dsimp only
  rw [if_pos h1]

/-- Witness for C5: the concrete single-rank configuration crashes on any
record. -/
theorem c5_single_rank_division_error_witness :
    compute_doctype_boost cfgSingleRank ({} : Record) = .error "ZeroDivisionError" :=
  c5_single_rank_division_error cfgSingleRank {} (by decide) (by decide)

/-- C8 counterexample: with `metrics.refereed` falsy and
`bib_data.refereed` truthy the refereed factor returns 1.0, not the 0.0 the
claim derives from metrics precedence. -/
theorem c8_counterexample_metrics_false_bib_true :
    compute_refereed_boost recConflictMetricsFalse = 1 ∧ (1 : ℚ) ≠ 0 := by
  decide

/-- C8 amended: metrics precedence only acts in the truthy direction.  With
both flags present, the factor is 1.0 when either flag is truthy (so a falsy
`metrics.refereed` with truthy `bib_data.refereed` still gives 1.0) and 0.0
only when both are falsy. -/
theorem c8_amended_refereed_precedence (r : Record) (mv bv : Bool)
    (bd : BibData) (hm : r.metrics = some { refereed := some mv })
    (hb : r.bib_data = some bd) (hbr : bd.refereed = some bv) :
    compute_refereed_boost r = if mv || bv then 1 else 0 := by
  unfold compute_refereed_boost metricsRefereed bibDataRefereed
  rw [hm, hb]
  dsimp only
  rw [hbr]
  cases mv <;> cases bv <;> simp

/-- Witness for C8 at the conflicting record. -/
theorem c8_amended_refereed_precedence_witness :
    compute_refereed_boost recConflictMetricsFalse
      = if false || true then 1 else 0 :=
  c8_amended_refereed_precedence recConflictMetricsFalse false true
    { refereed := some true } rfl rfl rfl

/-- C9: the defaulting case yields the single collection `general`, and any
record whose normalised own collections contain `general` receives weight
1.0 for every configured discipline on every branch of the resolver,
regardless of the content of `COLLECTION_RANKINGS`. -/
theorem c9_general_collection_all_weights_one :
    (∀ r : Record, rawCollectionValues r = none →
        recordCollectionsOf r = ["general"]) ∧
    ∀ (cfg : Config) (r : Record), "general" ∈ recordCollectionsOf r →
      compute_collection_weights cfg r
        = (collectionsOf cfg).map (fun c => (c ++ "_weight", (1 : ℚ))) := by
  constructor
  · intro r h
    unfold recordCollectionsOf
    rw [h]
    rfl
  · intro cfg r h
    unfold compute_collection_weights
    dsimp only
    by_cases h1 : cfg.COLLECTION_RANKINGS = []
    · rw [if_pos h1]
    · rw [if_neg h1]
      by_cases h2 : sortedDescRanks (collectRanks cfg.COLLECTION_RANKINGS) = []
      · rw [if_pos h2]
      · rw [if_neg h2, if_pos h]

/-- Witness for C9: a record with no collection information at all gets
weight 1.0 everywhere under the shipped configuration. -/
theorem c9_general_collection_all_weights_one_witness :
    compute_collection_weights shippedConfig ({} : Record)
      = (collectionsOf shippedConfig).map (fun c => (c ++ "_weight", (1 : ℚ))) :=
  c9_general_collection_all_weights_one.2 shippedConfig {} (by decide)

/-- C10: on every branch, the key set of the resolver output is exactly the
configured discipline names suffixed `_weight`, and the assembler lookup of
each discipline weight therefore succeeds. -/
theorem c10_weight_keys_exact (cfg : Config) (r : Record) :
    (∀ k, k ∈ (compute_collection_weights cfg r).map (fun p => p.1) ↔
        k ∈ (collectionsOf cfg).map (fun c => c ++ "_weight")) ∧
    ∀ c ∈ collectionsOf cfg,
      (dictGet (compute_collection_weights cfg r) (c ++ "_weight")).isSome := by
  constructor
  · intro k
    rw [compute_collection_weights_keys]
  · intro c hc
    apply dictGet_isSome_of_mem_keys
    rw [compute_collection_weights_keys]
    exact List.mem_map_of_mem _ hc

/-- Witness for C10 at a configured discipline of the shipped
configuration. -/
theorem c10_weight_keys_exact_witness :
    (dictGet (compute_collection_weights shippedConfig ({} : Record))
      ("physics" ++ "_weight")).isSome :=
  (c10_weight_keys_exact shippedConfig {}).2 "physics" (by decide)

/-- C2 counterexample: a request carrying only a non-empty `scix_id` is
rejected without scoring, although the claim says it is scored. -/
theorem c2_counterexample_scix_only_rejected :
    process_boost_request shippedConfig 0 rawScixOnly = .ok .rejected ∧
    (parseMasterPipelineMessage rawScixOnly).scix_id ≠ "" ∧
    (parseMasterPipelineMessage rawScixOnly).bibcode = "" := by
  decide

/-- C2 amended: the message path rejects a record exactly when its parsed
bibcode is empty or missing, even when `scix_id` is present; only records
with a non-empty bibcode are scored. -/
theorem c2_amended_rejected_iff_no_bibcode (cfg : Config) (now : Int)
    (raw : RawRecord) (res : ProcessOutcome)
    (h : process_boost_request cfg now raw = .ok res) :
    res = .rejected ↔ (parseMasterPipelineMessage raw).bibcode = "" := by
  unfold process_boost_request at h
  by_cases hb : (parseMasterPipelineMessage raw).bibcode = ""
  · rw [if_pos hb] at h
    cases h
    simp [hb]
  · rw [if_neg hb] at h
    split at h
    · cases h
    · cases h
      simp [hb]

/-- Witness for C2 at the scix-only request. -/
theorem c2_amended_rejected_iff_no_bibcode_witness :
    (ProcessOutcome.rejected = ProcessOutcome.rejected ↔
      (parseMasterPipelineMessage rawScixOnly).bibcode = "") :=
  c2_amended_rejected_iff_no_bibcode shippedConfig 0 rawScixOnly .rejected (by decide)

/-- C6 counterexample: with a parseable `pubdate` and a present but
unparseable `entry_date`, no reference date is selected and the factor is
the neutral 1.0, although the claim says the parseable date is used (the
expected decay value one month after the pubdate would be 761/836 ≠ 1). -/
theorem c6_counterexample_mixed_parse :
    parseDate "2020-01-01" = some ⟨2020, 1, 1⟩ ∧
    recencyReferenceDate recBothDates = none ∧
    compute_recency_boost shippedConfig 737455 recBothDates = .ok 1 ∧
    (761 / 836 : ℚ) ≠ 1 := by
  with_unfolding_all decide

/-- C6 amended: a lone present, parseable date is used as the reference
date (with the day-`00` substitution applied to `pubdate`); but when both
dates are present, a parse failure of either yields no reference date; and
whenever no reference date is selected the factor is the neutral 1.0. -/
theorem c6_amended_reference_date (r : Record) :
    (∀ p dp, pubdateOf r = some p → entryDateOf r = none →
        parseDate (fixDay00 p) = some dp → recencyReferenceDate r = some dp) ∧
    (∀ e de, pubdateOf r = none → entryDateOf r = some e →
        parseDate e = some de → recencyReferenceDate r = some de) ∧
    (∀ (cfg : Config) (now : Int), recencyReferenceDate r = none →
        compute_recency_boost cfg now r = .ok 1) := by
  refine ⟨?_, ?_, ?_⟩
  · intro p dp hp he hparse
    unfold recencyReferenceDate
    rw [hp, he]
    exact hparse
  · intro e de hp he hparse
    unfold recencyReferenceDate
    rw [hp, he]
    exact hparse
  · intro cfg now h
    unfold compute_recency_boost
    rw [h]

/-- Witness for C6: a lone `pubdate` with day `00` is parsed as the first of
the month and selected. -/
theorem c6_amended_reference_date_witness :
    recencyReferenceDate recPub00 = some ⟨2020, 5, 1⟩ :=
  (c6_amended_reference_date recPub00).1 "2020-05-00" ⟨2020, 5, 1⟩
    (by with_unfolding_all decide) (by with_unfolding_all decide)
    (by with_unfolding_all decide)

/-- C7 counterexample: with `RECENCY_BOOST_MAX_AGE_MONTHS` configured to 48
and a record aged about 30 months (913 days), the factor is 1.0 although the
age is at most the configured maximum, where the claim requires the decay
value (which differs from 1). -/
theorem c7_counterexample_configured_max_age_ignored :
    cfg48.RECENCY_BOOST_MAX_AGE_MONTHS = some 48 ∧
    recencyReferenceDate recJan2020 = some ⟨2020, 1, 1⟩ ∧
    ageMonthsOf 738338 ⟨2020, 1, 1⟩ ≤ 48 ∧
    compute_recency_boost cfg48 738338 recJan2020 = .ok 1 ∧
    (1 : ℚ) ≠ 1 / (1 + recencyMultiplierOf cfg48 * ageMonthsOf 738338 ⟨2020, 1, 1⟩) := by
  with_unfolding_all decide

/-- C7 amended: the cutoff is the hard-coded constant 24 months, whatever
`RECENCY_BOOST_MAX_AGE_MONTHS` is configured to: above 24 months of age the
factor is exactly 1.0, and at or below 24 months (for a non-negative age and
multiplier) it is `1 / (1 + multiplier * age_months)`. -/
theorem c7_amended_fixed_cutoff (cfg : Config) (now : Int) (r : Record) (d : Date)
    (h : recencyReferenceDate r = some d) :
    (ageMonthsOf now d > 24 → compute_recency_boost cfg now r = .ok 1) ∧
    (¬ (ageMonthsOf now d > 24) → 0 ≤ ageMonthsOf now d →
      0 ≤ recencyMultiplierOf cfg →
      compute_recency_boost cfg now r
        = .ok (1 / (1 + recencyMultiplierOf cfg * ageMonthsOf now d))) := by
  constructor
  · intro hgt
    unfold compute_recency_boost
    rw [h]
    dsimp only
    rw [if_pos hgt]
  · intro hle hage hm
    have hden : ¬ (1 + recencyMultiplierOf cfg * ageMonthsOf now d = 0) := by
      have hnn := mul_nonneg hm hage
      intro h0
      nlinarith
    unfold compute_recency_boost
    rw [h]
    dsimp only
    rw [if_neg hle, if_neg hden]

/-- Witness for C7: an age beyond 24 months yields exactly 1.0. -/
theorem c7_amended_fixed_cutoff_witness :
    compute_recency_boost shippedConfig 739617 recJan2020 = .ok 1 :=
  (c7_amended_fixed_cutoff shippedConfig 739617 recJan2020 ⟨2020, 1, 1⟩
    (by with_unfolding_all decide)).1 (by with_unfolding_all decide)

/-- C1: under the shipped configuration the resolver produces
`astrophysics`/`earthscience`/`planetary` keys, so the outbound message
fields `astronomy_final_boost`, `earth_science_final_boost` and
`planetary_science_final_boost` fall back to the substituted default 0.0
instead of carrying weight × boost_factor (here boost_factor = 1 and the
astrophysics weight is 1/10), while `physics_final_boost` passes through. -/
theorem c1_outbound_final_boost_defaulted :
    compute_final_boost shippedConfig 0 rec1 = .ok c1result ∧
    dictGet c1result "astronomy_final_boost" = none ∧
    dictGet c1result "earth_science_final_boost" = none ∧
    dictGet c1result "planetary_science_final_boost" = none ∧
    dictGet c1result "astrophysics_final_boost" = some (1/10) ∧
    dictGet c1result "boost_factor" = some 1 ∧
    (send_to_master_pipeline raw1 c1result).map (fun m => m.astronomy_final_boost)
      = some 0 ∧
    (send_to_master_pipeline raw1 c1result).map (fun m => m.earth_science_final_boost)
      = some 0 ∧
    (send_to_master_pipeline raw1 c1result).map
        (fun m => m.planetary_science_final_boost) = some 0 ∧
    (send_to_master_pipeline raw1 c1result).map (fun m => m.physics_final_boost)
      = some (7/25) := by
  with_unfolding_all decide

/-- C4: neither storage branch ever writes the `boost_factor` column — the
create branch leaves it `NULL` and the update branch leaves it unchanged —
although every successful computation carries a `boost_factor` entry. -/
theorem c4_boost_factor_column_never_written :
    (∀ (bib sid : String) (bf : List (String × ℚ)) (row : StoredRow),
        storeCreateRow bib sid bf = .ok row → row.boost_factor = none) ∧
    (∀ (row : StoredRow) (bf : List (String × ℚ)) (row' : StoredRow),
        storeUpdateRow row bf = .ok row' → row'.boost_factor = row.boost_factor) ∧
    (∀ (cfg : Config) (now : Int) (r : Record) (res : List (String × ℚ)),
        compute_final_boost cfg now r = .ok res →
        (dictGet res "boost_factor").isSome) := by
  refine ⟨?_, ?_, ?_⟩
  · intro bib sid bf row h
    unfold storeCreateRow at h
    split at h
    · cases h
      rfl
    · cases h
  · intro row bf row' h
    unfold storeUpdateRow at h
    split at h
    · cases h
      rfl
    · cases h
  · intro cfg now r res h
    unfold compute_final_boost at h
    dsimp only at h
    split at h
    · cases h
    · split at h
      · cases h
      · split at h
        · cases h
        · split at h
          · cases h
          · cases h
            apply dictGet_isSome_of_mem_keys
            simp

/-- Witness for C4: the row created from a computed mapping has a `NULL`
`boost_factor` column. -/
theorem c4_boost_factor_column_never_written_witness :
    row3.boost_factor = none :=
  c4_boost_factor_column_never_written.1 "b" "s" bf3 row3 (by decide)

/-- C3 counterexample: with the shipped configuration (non-negative
BoostWeights) and a record whose pubdate is about five months in the future
of the clock (ordinal 739465, i.e. 152 days before 2026-01-01), the recency
factor is 761/381 ≈ 1.997, outside `[0, 1]`. -/
theorem c3_counterexample_future_date :
    (∀ p ∈ shippedConfig.BOOST_WEIGHTS, 0 ≤ p.2) ∧
    compute_recency_boost shippedConfig 739465 recFuture = .ok (761 / 381) ∧
    ¬ ((761 / 381 : ℚ) ≤ 1) := by
  with_unfolding_all decide

/-- C3 amended: for a weight table of the documented three-entry shape with
non-negative weights, a non-negative recency multiplier, and a record whose
reference date does not lie in the future of the clock, every entry of a
successfully computed result mapping — the three base factors, all
discipline weights, the combined boost factor, and all final boosts — lies
in `[0, 1]`. -/
theorem c3_amended_bounds (cfg : Config) (now : Int) (r : Record) (a b c : ℚ)
    (hw : effectiveBoostWeights cfg
        = [("refereed_boost", a), ("doctype_boost", b), ("recency_boost", c)])
    (ha : 0 ≤ a) (hb : 0 ≤ b) (hc : 0 ≤ c)
    (hm : 0 ≤ recencyMultiplierOf cfg)
    (hdate : ∀ d, recencyReferenceDate r = some d → (dateOrdinal d : Int) ≤ now)
    (res : List (String × ℚ)) (hres : compute_final_boost cfg now r = .ok res) :
    ∀ p ∈ res, 0 ≤ p.2 ∧ p.2 ≤ 1 := by
  unfold compute_final_boost at hres
  dsimp only at hres
  split at hres
  · cases hres
  · rename_i db hdb
    split at hres
    · cases hres
    · rename_i recb hrec
      rw [hw] at hres
      split at hres
      · cases hres
      · rename_i bfq hbfq
        split at hres
        · cases hres
        · rename_i fbs hfbs
          cases hres
          have hrb := compute_refereed_boost_bounds r
          have hdbb := compute_doctype_boost_bounds hdb
          have hrecb := compute_recency_boost_bounds hm hdate hrec
          have hbf := combineBoostFactor_bounds ha hb hc hrb hdbb hrecb hbfq
          have hcw := compute_collection_weights_bounds cfg r
          intro p hp
          rw [List.mem_append] at hp
          rcases hp with hp | hp
          · rw [List.mem_append] at hp
            rcases hp with hp | hp
            · rw [List.mem_append] at hp
              rcases hp with hp | hp
              · simp only [List.mem_cons, List.not_mem_nil, or_false] at hp
                rcases hp with rfl | rfl | rfl
                · exact hrb
                · exact hdbb
                · exact hrecb
              · exact hcw p hp
            · obtain ⟨cn, w, hwget, rfl⟩ := finalBoostsList_mem hfbs p hp
              obtain ⟨pw, hpwmem, hpww⟩ := dictGet_mem hwget
              have hwb := hcw pw hpwmem
              rw [hpww] at hwb
              exact ⟨mul_nonneg hwb.1 hbf.1, mul_le_one₀ hwb.2 hbf.1 hbf.2⟩
          · simp only [List.mem_singleton] at hp
            subst hp
            exact hbf

/-- Witness for C3 at the concrete computed result of `rec1` under the
shipped configuration. -/
theorem c3_amended_bounds_witness :
    0 ≤ (("refereed_boost", (1 : ℚ))).2 ∧ (("refereed_boost", (1 : ℚ))).2 ≤ 1 :=
  c3_amended_bounds shippedConfig 0 rec1 (2/5) (3/5) 0 rfl
    (by with_unfolding_all decide) (by with_unfolding_all decide)
    (by with_unfolding_all decide) (by with_unfolding_all decide)
    (fun d h => Option.noConfusion
      ((by with_unfolding_all decide :
          recencyReferenceDate rec1 = none).symm.trans h))
    c1result (by with_unfolding_all decide)
    ("refereed_boost", 1) (by with_unfolding_all decide)
